import Mathlib

/-!
Shallow embedding of the OCI distribution client
(crates/oci-distribution/src/lib.rs): the `Client` with its token store,
the `version` probe, the `auth` handshake, the `pull_manifest` fetcher,
`RegistryToken`, and `BearerChallenge`.  Network and deserialization
effects are passed in explicitly as environment records, so every
operation is a pure function of its inputs.  Unwrap/index panics in the
source are modelled as distinct `panicked` outcomes.
-/

namespace Oci

/-- an HTTP response as consumed by the client: numeric status code,
response headers as ordered key-value pairs, and the body text. -/
structure HttpResponse where
  status : Nat
  headers : List (String × String)
  body : String
  deriving Repr, DecidableEq

/-- an outbound HTTP request as built by the client: URL, headers in
insertion order, and query parameters. -/
structure HttpRequest where
  url : String
  headers : List (String × String)
  query : List (String × String)
  deriving Repr, DecidableEq

/-- the response-header key consulted by the version probe
(source constant OCI_VERSION_KEY). -/
def OCI_VERSION_KEY : String := "Docker-Distribution-Api-Version"

/-- the response-header key consulted by the auth handshake
(reqwest::header::WWW_AUTHENTICATE). -/
def WWW_AUTHENTICATE : String := "WWW-Authenticate"

/-- a token granted during the OAuth2-like workflow for OCI registries
(source struct RegistryToken).  Timestamps are kept as raw strings. -/
structure RegistryToken where
  access_token : String
  expires_in : Option Nat := none
  issued_at : Option String := none
  deriving Repr, DecidableEq

/-- RegistryToken::bearer_token renders the stored token as an
Authorization header value. -/
def RegistryToken.bearer_token (t : RegistryToken) : String :=
  "Bearer " ++ t.access_token

/-- the OCI client (source struct Client): its only state is the
optional stored registry token. -/
structure Client where
  token : Option RegistryToken
  deriving Repr, DecidableEq

/-- Default for Client: a fresh client holds no token. -/
def Client.default : Client := { token := none }

/-- a challenge field list: key-value pairs of a parsed auth challenge. -/
abbrev ChallengeFields := List (String × String)

/-- remove a key from a field list, returning the removed value (if any)
and the remaining fields; mirrors ChallengeFields::remove of the
external header library used by BearerChallenge::from_raw. -/
def ChallengeFields.removeKey : ChallengeFields → String → Option String × ChallengeFields
  | [], _ => (none, [])
  | (k, v) :: rest, key =>
    if k = key then (some v, rest)
    else
      let r := ChallengeFields.removeKey rest key
      (r.1, (k, v) :: r.2)

/-- a raw authentication challenge per the RFC 7235 grammar: either a
token68 blob or a key-value field list. -/
inductive RawChallenge where
  | token68 (tok : String)
  | fields (map : ChallengeFields)
  deriving Repr, DecidableEq

/-- a bearer-scheme challenge (source struct BearerChallenge). -/
structure BearerChallenge where
  realm : Option String
  service : Option String
  scope : Option String
  deriving Repr, DecidableEq

/-- Challenge::challenge_name for BearerChallenge. -/
def BearerChallenge.challenge_name : String := "Bearer"

/-- BearerChallenge::from_raw: a token68-form challenge yields no bearer
challenge; a fields-form challenge yields one, removing realm, scope and
service from the field list in that order. -/
def BearerChallenge.from_raw : RawChallenge → Option BearerChallenge
  | .token68 _ => none
  | .fields m =>
    let r1 := ChallengeFields.removeKey m "realm"
    let r2 := ChallengeFields.removeKey r1.2 "scope"
    let r3 := ChallengeFields.removeKey r2.2 "service"
    some { realm := r1.1, scope := r2.1, service := r3.1 }

/-- Modelled from the spec: the external challenge parser (crate
www_authenticate, not part of this repository) decodes a WWW-Authenticate
header value into an ordered collection of (scheme, raw challenge)
entries per the RFC 7235 grammar (spec section 4.1). -/
abbrev WwwAuthenticate := List (String × RawChallenge)

/-- Modelled from the spec: the external typed lookup
WwwAuthenticate::get for BearerChallenge collects the entries of the
Bearer scheme, decodes each through BearerChallenge.from_raw, and yields
the resulting non-empty list, or none when no recognized bearer
challenge is present (spec section 4.1: "contains no recognized
challenge" signals no handshake required). -/
def WwwAuthenticate.get (auth : WwwAuthenticate) : Option (List BearerChallenge) :=
  let cs := (auth.filter (fun e => e.1 = BearerChallenge.challenge_name)).filterMap
    (fun e => BearerChallenge.from_raw e.2)
  if cs.isEmpty then none else some cs

/-- Modelled from the spec: the Reference collaborator (module
reference, not among the provided sources) is opaque to the core and
exposes the registry host, the repository path and the v2 manifest URL
(spec section 6). -/
structure Reference where
  registry : String
  repository : String
  to_v2_manifest_url : String
  deriving Repr, DecidableEq

/-- Modelled from the spec: the manifest data model (module manifest,
not among the provided sources) exposes a schema version and a sequence
of layers; the core only passes it through (spec section 6). -/
structure OciManifest where
  schema_version : Nat
  layers : List String
  deriving Repr, DecidableEq

/-- Modelled from the spec: the structured error envelope (module
errors, not among the provided sources) carries machine-readable error
entries, rendered to strings for display; the glossary specifies one or
more entries (spec glossary: "error envelope"). -/
structure OciEnvelope where
  errors : List String
  deriving Repr, DecidableEq

/-- the message of the Rust panic raised by Option::unwrap on None. -/
def UNWRAP_NONE_MSG : String := "called Option::unwrap() on a None value"

/-- failure outcomes of Client::auth: transport errors propagated by
the question-mark operator, WWW-Authenticate parse failures, panics from
unwrap/indexing, token-body decode failures, and the explicit
failed-to-authenticate error on a non-200 token response. -/
inductive AuthError where
  | transport (msg : String)
  | headerParse (msg : String)
  | panicked (msg : String)
  | decode (msg : String)
  | rejected (msg : String)
  deriving Repr, DecidableEq

/-- failure outcomes of Client::version: transport errors or the
missing version header. -/
inductive VersionError where
  | transport (msg : String)
  | missingVersionHeader
  deriving Repr, DecidableEq

/-- failure outcomes of Client::pull_manifest, one per branch of the
status classification in the source. -/
inductive PullError where
  | transport (msg : String)
  | decode (msg : String)
  | clientError (msg : String)
  | serverError (msg : String)
  | unexpectedStatus (msg : String)
  | panicked (msg : String)
  deriving Repr, DecidableEq

/-- the request issued by Client::version: a bare GET on the v2 base
endpoint, no headers and hence no credential. -/
def versionRequest (host : String) : HttpRequest :=
  { url := "https://" ++ host ++ "/v2/", headers := [], query := [] }

/-- Client::version: issue the probe and extract the version header
value; the header being absent is an error regardless of the status
code, which the source never inspects.  The request built by the call is
returned alongside the classified result. -/
def Client.version (_c : Client) (host : String) (probe : Except String HttpResponse) :
    HttpRequest × Except VersionError String :=
  (versionRequest host,
    match probe with
    | .error e => .error (.transport e)
    | .ok res =>
      match List.lookup OCI_VERSION_KEY res.headers with
      | none => .error .missingVersionHeader
      | some v => .ok v)

/-- the token-exchange request built by Client::auth: GET on the realm
with service and scope query parameters. -/
def tokenRequest (realm service scopeArg : String) : HttpRequest :=
  { url := realm, headers := [], query := [("service", service), ("scope", scopeArg)] }

/-- the effects one Client::auth call can perform: the probe response,
the external WWW-Authenticate header parse, the token-endpoint response
as a function of the token request, and the serde deserialization of a
token response body. -/
structure AuthEnv where
  probe : Except String HttpResponse
  parseHeader : String → Except String WwwAuthenticate
  tokenRes : HttpRequest → Except String HttpResponse
  parseToken : String → Except String RegistryToken

/-- Client::auth, line by line from the source: probe the v2 endpoint;
a missing WWW-Authenticate header or a parsed header with no bearer
challenge are silent successes; parse failures propagate; the first
bearer challenge has realm and service unwrapped (a panic when absent);
the token request is sent with a pull-only scope; a 200 stores the
deserialized token, any other status is a rejection error carrying the
body text.  Returns the resulting client state and the call result. -/
def Client.auth (c : Client) (image : Reference) (_secret : Option String) (env : AuthEnv) :
    Client × Except AuthError Unit :=
  match env.probe with
  | .error e => (c, .error (.transport e))
  | .ok res =>
    match List.lookup WWW_AUTHENTICATE res.headers with
    | none => (c, .ok ())
    | some dist_hdr =>
      match env.parseHeader dist_hdr with
      | .error e => (c, .error (.headerParse e))
      | .ok auth =>
        match WwwAuthenticate.get auth with
        | none => (c, .ok ())
        | some challenge_opt =>
          match challenge_opt with
          | [] => (c, .error (.panicked "index out of bounds"))
          | challenge :: _ =>
            match challenge.realm with
            | none => (c, .error (.panicked UNWRAP_NONE_MSG))
            | some realm =>
              match challenge.service with
              | none => (c, .error (.panicked UNWRAP_NONE_MSG))
              | some service =>
                match env.tokenRes
                    (tokenRequest realm service
                      ("repository:" ++ image.repository ++ ":pull")) with
                | .error e => (c, .error (.transport e))
                | .ok auth_res =>
                  if auth_res.status = 200 then
                    match env.parseToken auth_res.body with
                    | .error e => (c, .error (.decode e))
                    | .ok docker_token => ({ token := some docker_token }, .ok ())
                  else
                    (c, .error (.rejected ("failed to authenticate: " ++ auth_res.body)))

/-- the Accept header value sent by Client::pull_manifest. -/
def ACCEPT_VALUE : String :=
  "application/vnd.docker.distribution.manifest.v2+json,application/vnd.docker.distribution.manifest.list.v2+json"

/-- the headers built by Client::pull_manifest: Accept always, and
Authorization from the stored token when one is held. -/
def Client.pull_headers (c : Client) : List (String × String) :=
  [("Accept", ACCEPT_VALUE)] ++
    (match c.token with
     | some bearer => [("Authorization", RegistryToken.bearer_token bearer)]
     | none => [])

/-- the manifest request built by Client::pull_manifest. -/
def pullRequest (c : Client) (image : Reference) : HttpRequest :=
  { url := image.to_v2_manifest_url, headers := Client.pull_headers c, query := [] }

/-- an apostrophe, kept out of string literals. -/
def SQ : String := (Char.ofNat 39).toString

/-- the effects one Client::pull_manifest call can perform: the manifest
response and the two serde deserializations. -/
structure PullEnv where
  response : Except String HttpResponse
  parseManifest : String → Except String OciManifest
  parseEnvelope : String → Except String OciEnvelope

/-- reqwest StatusCode::is_client_error: 400 through 499. -/
def isClientError (s : Nat) : Bool := 400 ≤ s && s ≤ 499

/-- reqwest StatusCode::is_server_error: 500 through 599. -/
def isServerError (s : Nat) : Bool := 500 ≤ s && s ≤ 599

/-- Client::pull_manifest, line by line from the source: send the GET
built by pullRequest, then classify the status: 200 parses the manifest;
4xx parses the error envelope (a decode failure propagates via the
question mark) and wraps its first entry and the URL (indexing an empty
envelope is a panic); 5xx is a generic server error naming the URL; any
other status is the unexpected-status error carrying code and body.  The
request built by the call is returned alongside the classified result. -/
def Client.pull_manifest (c : Client) (image : Reference) (env : PullEnv) :
    HttpRequest × Except PullError OciManifest :=
  (pullRequest c image,
  match env.response with
  | .error e => .error (.transport e)
  | .ok res =>
    if res.status = 200 then
      match env.parseManifest res.body with
      | .error e => .error (.decode e)
      | .ok m => .ok m
    else if isClientError res.status then
      match env.parseEnvelope res.body with
      | .error e => .error (.decode e)
      | .ok envl =>
        match envl.errors with
        | [] => .error (.panicked "index out of bounds")
        | e :: _ => .error (.clientError (e ++ " on " ++ image.to_v2_manifest_url))
    else if isServerError res.status then
      .error (.serverError ("Server error at " ++ image.to_v2_manifest_url))
    else
      .error (.unexpectedStatus
        ("An unexpected error occured: code=" ++ toString res.status ++
          ", message=" ++ SQ ++ res.body ++ SQ)))

/-- one operation of a client session: a version probe, an auth
handshake, or a manifest pull, each with the environment it consumes. -/
inductive Op where
  | versionOp (host : String) (probe : Except String HttpResponse)
  | authOp (image : Reference) (secret : Option String) (env : AuthEnv)
  | pullOp (image : Reference) (env : PullEnv)

/-- the client state after one operation: version and pull_manifest
borrow the client immutably, only auth can change it. -/
def Client.step (c : Client) : Op → Client
  | .versionOp _ _ => c
  | .authOp image secret env => (Client.auth c image secret env).1
  | .pullOp _ _ => c

/-- the client state after a sequence of operations. -/
def Client.run (c : Client) (ops : List Op) : Client :=
  ops.foldl Client.step c

/-- a token t was obtained, during some auth operation of the sequence,
by deserializing the body of a 200 response of the token endpoint to the
pull-scoped token request of that call. -/
def tokenFrom200 (ops : List Op) (t : RegistryToken) : Prop :=
  ∃ image secret env realm service res,
    Op.authOp image secret env ∈ ops ∧
    env.tokenRes (tokenRequest realm service ("repository:" ++ image.repository ++ ":pull"))
      = Except.ok res ∧
    res.status = 200 ∧
    env.parseToken res.body = Except.ok t

/-! Helper lemmas about field-list removal, shared by the challenge
parser theorems. -/

/-- removing a key returns the value the key is first bound to. -/
theorem removeKey_fst (m : ChallengeFields) (k : String) :
    (ChallengeFields.removeKey m k).1 = List.lookup k m := by
  induction m with
  | nil => rfl
  | cons p rest ih =>
    obtain ⟨ke, v⟩ := p
    by_cases h : ke = k
    · simp [ChallengeFields.removeKey, h, List.lookup]
    · have hbe : (k == ke) = false := beq_eq_false_iff_ne.mpr fun hk => h hk.symm
      simp [ChallengeFields.removeKey, h, List.lookup, ih, hbe]

/-- removing one key leaves lookups of a different key unchanged. -/
theorem removeKey_snd_lookup (m : ChallengeFields) (k k' : String) (h : k' ≠ k) :
    List.lookup k' (ChallengeFields.removeKey m k).2 = List.lookup k' m := by
  induction m with
  | nil => rfl
  | cons p rest ih =>
    obtain ⟨ke, v⟩ := p
    by_cases hk : ke = k
    · subst hk
      have hbe : (k' == ke) = false := beq_eq_false_iff_ne.mpr h
      simp [ChallengeFields.removeKey, List.lookup, hbe]
    · by_cases hk' : k' = ke
      · simp [ChallengeFields.removeKey, hk, List.lookup, hk']
      · simp [ChallengeFields.removeKey, hk, List.lookup, hk', ih]

/-- a fields-form raw challenge decodes to the challenge whose realm,
service and scope are the lookups of those keys. -/
theorem from_raw_fields (m : ChallengeFields) :
    BearerChallenge.from_raw (RawChallenge.fields m) =
      some { realm := List.lookup "realm" m, service := List.lookup "service" m,
             scope := List.lookup "scope" m } := by
  have h1 : (ChallengeFields.removeKey m "realm").1 = List.lookup "realm" m :=
    removeKey_fst m "realm"
  have h2 : (ChallengeFields.removeKey (ChallengeFields.removeKey m "realm").2 "scope").1
      = List.lookup "scope" m := by
    rw [removeKey_fst, removeKey_snd_lookup _ _ _ (by decide)]
  have h3 : (ChallengeFields.removeKey
        (ChallengeFields.removeKey (ChallengeFields.removeKey m "realm").2 "scope").2
        "service").1 = List.lookup "service" m := by
    rw [removeKey_fst, removeKey_snd_lookup _ _ _ (by decide),
      removeKey_snd_lookup _ _ _ (by decide)]
  simp only [BearerChallenge.from_raw]
  rw [h1, h2, h3]

/-- C10: the optional secret argument of auth is accepted but never
used: two auth calls differing only in the secret have identical result
and identical resulting client state. -/
theorem auth_independent_of_secret (c : Client) (image : Reference)
    (s1 s2 : Option String) (env : AuthEnv) :
    Client.auth c image s1 env = Client.auth c image s2 env := rfl

/-- C2: the manifest request carries Authorization exactly
"Bearer " followed by the stored access token when a token is held, and
carries no Authorization header at all when the token store is empty, in
particular on a fresh client. -/
theorem pull_manifest_authorization_header (c : Client) (image : Reference) (env : PullEnv) :
    (∀ t, c.token = some t →
      List.lookup "Authorization" (Client.pull_manifest c image env).1.headers
        = some ("Bearer " ++ t.access_token)) ∧
    (c.token = none →
      ∀ v, ("Authorization", v) ∉ (Client.pull_manifest c image env).1.headers) ∧
    (∀ v, ("Authorization", v) ∉ (Client.pull_manifest Client.default image env).1.headers) := by
  refine ⟨?_, ?_, ?_⟩
  · intro t ht
    simp [Client.pull_manifest, pullRequest, Client.pull_headers, ht,
      RegistryToken.bearer_token, List.lookup]
  · intro hnone v
    simp [Client.pull_manifest, pullRequest, Client.pull_headers, hnone]
  · intro v
    simp [Client.pull_manifest, pullRequest, Client.pull_headers, Client.default]

/-- C2 witness: a client holding token "abc" sends Authorization
"Bearer abc"; a fresh client sends no Authorization header. -/
theorem pull_manifest_authorization_header_witness :
    List.lookup "Authorization"
        (Client.pull_manifest ⟨some ⟨"abc", none, none⟩⟩ ⟨"h", "repo", "u"⟩
          { response := Except.error "e", parseManifest := fun _ => Except.error "e",
            parseEnvelope := fun _ => Except.error "e" }).1.headers
      = some ("Bearer " ++ "abc") ∧
    ("Authorization", "x") ∉
      (Client.pull_manifest Client.default ⟨"h", "repo", "u"⟩
        { response := Except.error "e", parseManifest := fun _ => Except.error "e",
          parseEnvelope := fun _ => Except.error "e" }).1.headers :=
  ⟨(pull_manifest_authorization_header ⟨some ⟨"abc", none, none⟩⟩ ⟨"h", "repo", "u"⟩ _).1
      ⟨"abc", none, none⟩ rfl,
    (pull_manifest_authorization_header Client.default ⟨"h", "repo", "u"⟩ _).2.2 "x"⟩

/-- C7: the version probe fails with the missing-header error exactly
when the version header is absent, whatever the status code; when the
header is present its value is returned exactly; the request the probe
sends carries no header at all (in particular no credential), for every
client state; and the outcome never depends on the client state. -/
theorem version_header_and_anonymous (c : Client) (host : String) (res : HttpResponse) :
    ((Client.version c host (Except.ok res)).2 = Except.error VersionError.missingVersionHeader
        ↔ List.lookup OCI_VERSION_KEY res.headers = none) ∧
    (∀ v, List.lookup OCI_VERSION_KEY res.headers = some v →
      (Client.version c host (Except.ok res)).2 = Except.ok v) ∧
    (∀ probe v, ("Authorization", v) ∉ (Client.version c host probe).1.headers) ∧
    (∀ c' probe, Client.version c host probe = Client.version c' host probe) := by
  refine ⟨?_, ?_, ?_, ?_⟩
  · constructor
    · intro h
      cases hl : List.lookup OCI_VERSION_KEY res.headers with
      | none => rfl
      | some v => simp [Client.version, hl] at h
    · intro h
      simp [Client.version, h]
  · intro v h
    simp [Client.version, h]
  · intro probe v
    simp [Client.version, versionRequest]
  · intro c' probe
    rfl

/-- C7 witness: a 404 response without the version header fails with the
missing-header error; a response carrying the header yields its value. -/
theorem version_header_and_anonymous_witness :
    (Client.version Client.default "h" (Except.ok ⟨404, [], ""⟩)).2
        = Except.error VersionError.missingVersionHeader ∧
    (Client.version Client.default "h"
        (Except.ok ⟨404, [(OCI_VERSION_KEY, "registry/2.0")], ""⟩)).2
      = Except.ok "registry/2.0" :=
  ⟨(version_header_and_anonymous Client.default "h" ⟨404, [], ""⟩).1.mpr rfl,
    (version_header_and_anonymous Client.default "h"
      ⟨404, [(OCI_VERSION_KEY, "registry/2.0")], ""⟩).2.1 "registry/2.0" rfl⟩

/-- C8: a token68-form bearer entry decodes to no bearer challenge; a
fields-form bearer entry decodes to the challenge with realm, service
and scope extracted when present; and a header whose bearer entries are
all token68-form yields no bearer challenge at all from the typed
lookup. -/
theorem bearer_challenge_parsing (s : String) (m : ChallengeFields) (wa : WwwAuthenticate) :
    BearerChallenge.from_raw (RawChallenge.token68 s) = none ∧
    BearerChallenge.from_raw (RawChallenge.fields m) =
      some { realm := List.lookup "realm" m, service := List.lookup "service" m,
             scope := List.lookup "scope" m } ∧
    ((∀ e ∈ wa, e.1 = BearerChallenge.challenge_name → ∃ tok, e.2 = RawChallenge.token68 tok) →
      WwwAuthenticate.get wa = none) := by
  refine ⟨rfl, from_raw_fields m, ?_⟩
  intro h
  unfold WwwAuthenticate.get
  have hnil : (wa.filter (fun e => e.1 = BearerChallenge.challenge_name)).filterMap
      (fun e => BearerChallenge.from_raw e.2) = [] := by
    rw [List.filterMap_eq_nil_iff]
    intro e he
    rw [List.mem_filter] at he
    obtain ⟨tok, htok⟩ := h e he.1 (by simpa using he.2)
    rw [htok]
    rfl
  simp [hnil]

/-- C8 witness: a concrete token68 bearer entry decodes to nothing, both
entry-wise and through the typed lookup. -/
theorem bearer_challenge_parsing_witness :
    BearerChallenge.from_raw (RawChallenge.token68 "abc") = none ∧
    WwwAuthenticate.get [("Bearer", RawChallenge.token68 "abc")] = none :=
  ⟨(bearer_challenge_parsing "abc" [] []).1,
    (bearer_challenge_parsing "abc" [] [("Bearer", RawChallenge.token68 "abc")]).2.2
      (by
        intro e he hb
        rw [List.mem_singleton] at he
        exact ⟨"abc", by rw [he]⟩)⟩

/-- C3: when the probe response has no WWW-Authenticate header, or the
header parses but yields no recognized bearer challenge, auth returns
success and leaves the client exactly as it was: the token store is not
written. -/
theorem auth_no_bearer_challenge_is_silent_success (c : Client) (image : Reference)
    (secret : Option String) (env : AuthEnv) (res : HttpResponse)
    (hprobe : env.probe = Except.ok res)
    (h : List.lookup WWW_AUTHENTICATE res.headers = none ∨
      ∃ hdr wa, List.lookup WWW_AUTHENTICATE res.headers = some hdr ∧
        env.parseHeader hdr = Except.ok wa ∧ WwwAuthenticate.get wa = none) :
    Client.auth c image secret env = (c, Except.ok ()) := by
  rcases h with h | ⟨hdr, wa, hh, hp, hg⟩
  · simp [Client.auth, hprobe, h]
  · simp [Client.auth, hprobe, hh, hp, hg]

/-- C3 witness: a probe response with no headers at all makes auth a
silent success on a fresh client. -/
theorem auth_no_bearer_challenge_is_silent_success_witness :
    Client.auth Client.default ⟨"r", "repo", "u"⟩ none
        { probe := Except.ok ⟨200, [], ""⟩,
          parseHeader := fun _ => Except.error "unused",
          tokenRes := fun _ => Except.error "unused",
          parseToken := fun _ => Except.error "unused" }
      = (Client.default, Except.ok ()) :=
  auth_no_bearer_challenge_is_silent_success Client.default ⟨"r", "repo", "u"⟩ none _
    ⟨200, [], ""⟩ rfl (Or.inl rfl)

/-- C4: when the first bearer challenge lacks realm or lacks service,
auth fails for that call (with the unwrap panic of the source, modelled
as a panicked outcome) and stores no token; it does not silently
succeed. -/
theorem auth_missing_realm_or_service_fails (c : Client) (image : Reference)
    (secret : Option String) (env : AuthEnv) (res : HttpResponse) (hdr : String)
    (wa : WwwAuthenticate) (ch : BearerChallenge) (rest : List BearerChallenge)
    (hprobe : env.probe = Except.ok res)
    (hh : List.lookup WWW_AUTHENTICATE res.headers = some hdr)
    (hp : env.parseHeader hdr = Except.ok wa)
    (hg : WwwAuthenticate.get wa = some (ch :: rest))
    (hmiss : ch.realm = none ∨ ch.service = none) :
    Client.auth c image secret env
      = (c, Except.error (AuthError.panicked UNWRAP_NONE_MSG)) := by
  rcases hmiss with hr | hs
  · simp [Client.auth, hprobe, hh, hp, hg, hr]
  · cases hrealm : ch.realm with
    | none => simp [Client.auth, hprobe, hh, hp, hg, hrealm]
    | some r => simp [Client.auth, hprobe, hh, hp, hg, hrealm, hs]

/-- C4 witness: a bearer challenge carrying only service makes auth fail
with the unwrap panic and leaves the fresh client untouched. -/
theorem auth_missing_realm_or_service_fails_witness :
    Client.auth Client.default ⟨"r", "repo", "u"⟩ none
        { probe := Except.ok ⟨401, [(WWW_AUTHENTICATE, "h")], ""⟩,
          parseHeader := fun _ =>
            Except.ok [("Bearer", RawChallenge.fields [("service", "s")])],
          tokenRes := fun _ => Except.error "unused",
          parseToken := fun _ => Except.error "unused" }
      = (Client.default, Except.error (AuthError.panicked UNWRAP_NONE_MSG)) :=
  auth_missing_realm_or_service_fails Client.default ⟨"r", "repo", "u"⟩ none _
    ⟨401, [(WWW_AUTHENTICATE, "h")], ""⟩ "h"
    [("Bearer", RawChallenge.fields [("service", "s")])]
    ⟨none, some "s", none⟩ [] rfl rfl rfl rfl (Or.inl rfl)

/-- C6: when the token endpoint answers with any status other than 200,
auth fails with the rejection error whose message is the fixed prefix
followed by the response body text verbatim, and the client is
unchanged. -/
theorem auth_non_200_token_response_rejected (c : Client) (image : Reference)
    (secret : Option String) (env : AuthEnv) (res : HttpResponse) (hdr : String)
    (wa : WwwAuthenticate) (ch : BearerChallenge) (rest : List BearerChallenge)
    (realm service : String) (tr : HttpResponse)
    (hprobe : env.probe = Except.ok res)
    (hh : List.lookup WWW_AUTHENTICATE res.headers = some hdr)
    (hp : env.parseHeader hdr = Except.ok wa)
    (hg : WwwAuthenticate.get wa = some (ch :: rest))
    (hrealm : ch.realm = some realm)
    (hserv : ch.service = some service)
    (ht : env.tokenRes (tokenRequest realm service
        ("repository:" ++ image.repository ++ ":pull")) = Except.ok tr)
    (hst : tr.status ≠ 200) :
    Client.auth c image secret env
      = (c, Except.error (AuthError.rejected ("failed to authenticate: " ++ tr.body))) := by
  simp [Client.auth, hprobe, hh, hp, hg, hrealm, hserv, ht, hst]

/-- C6 witness: a 403 token response with body "forbidden" makes auth
fail with a rejection message carrying that body. -/
theorem auth_non_200_token_response_rejected_witness :
    Client.auth Client.default ⟨"r", "repo", "u"⟩ none
        { probe := Except.ok ⟨401, [(WWW_AUTHENTICATE, "h")], ""⟩,
          parseHeader := fun _ =>
            Except.ok [("Bearer", RawChallenge.fields [("realm", "rl"), ("service", "s")])],
          tokenRes := fun _ => Except.ok ⟨403, [], "forbidden"⟩,
          parseToken := fun _ => Except.error "unused" }
      = (Client.default,
          Except.error (AuthError.rejected ("failed to authenticate: " ++ "forbidden"))) :=
  auth_non_200_token_response_rejected Client.default ⟨"r", "repo", "u"⟩ none _
    ⟨401, [(WWW_AUTHENTICATE, "h")], ""⟩ "h"
    [("Bearer", RawChallenge.fields [("realm", "rl"), ("service", "s")])]
    ⟨some "rl", some "s", none⟩ [] "rl" "s" ⟨403, [], "forbidden"⟩
    rfl rfl rfl rfl rfl rfl rfl (by decide)

/-- every auth call either leaves the client untouched or succeeds:
shared case analysis over all paths of Client.auth. -/
theorem auth_cases_state (c : Client) (image : Reference) (secret : Option String)
    (env : AuthEnv) :
    (Client.auth c image secret env).1 = c
      ∨ (Client.auth c image secret env).2 = Except.ok () := by
  cases hprobe : env.probe with
  | error e => left; simp [Client.auth, hprobe]
  | ok res =>
    cases hh : List.lookup WWW_AUTHENTICATE res.headers with
    | none => left; simp [Client.auth, hprobe, hh]
    | some hdr =>
      cases hp : env.parseHeader hdr with
      | error e => left; simp [Client.auth, hprobe, hh, hp]
      | ok wa =>
        cases hg : WwwAuthenticate.get wa with
        | none => left; simp [Client.auth, hprobe, hh, hp, hg]
        | some chs =>
          cases chs with
          | nil => left; simp [Client.auth, hprobe, hh, hp, hg]
          | cons ch rest =>
            cases hrealm : ch.realm with
            | none => left; simp [Client.auth, hprobe, hh, hp, hg, hrealm]
            | some realm =>
              cases hserv : ch.service with
              | none => left; simp [Client.auth, hprobe, hh, hp, hg, hrealm, hserv]
              | some service =>
                cases ht : env.tokenRes (tokenRequest realm service
                    ("repository:" ++ image.repository ++ ":pull")) with
                | error e =>
                  left; simp [Client.auth, hprobe, hh, hp, hg, hrealm, hserv, ht]
                | ok auth_res =>
                  by_cases hst : auth_res.status = 200
                  · cases hj : env.parseToken auth_res.body with
                    | error e =>
                      left
                      simp [Client.auth, hprobe, hh, hp, hg, hrealm, hserv, ht, hst, hj]
                    | ok tok =>
                      right
                      simp [Client.auth, hprobe, hh, hp, hg, hrealm, hserv, ht, hst, hj]
                  · left
                    simp [Client.auth, hprobe, hh, hp, hg, hrealm, hserv, ht, hst]

/-- C9: whenever auth returns an error, the resulting client equals the
client before the call: a failing auth never writes (nor clears) the
token store. -/
theorem auth_failure_preserves_state (c : Client) (image : Reference)
    (secret : Option String) (env : AuthEnv) (e : AuthError)
    (herr : (Client.auth c image secret env).2 = Except.error e) :
    (Client.auth c image secret env).1 = c := by
  rcases auth_cases_state c image secret env with h | h
  · exact h
  · rw [h] at herr
    cases herr

/-- C9 witness: a transport failure during the probe leaves a client
holding token "abc" exactly as it was. -/
theorem auth_failure_preserves_state_witness :
    (Client.auth ⟨some ⟨"abc", none, none⟩⟩ ⟨"r", "repo", "u"⟩ none
        { probe := Except.error "connection refused",
          parseHeader := fun _ => Except.error "unused",
          tokenRes := fun _ => Except.error "unused",
          parseToken := fun _ => Except.error "unused" }).1
      = ⟨some ⟨"abc", none, none⟩⟩ :=
  auth_failure_preserves_state ⟨some ⟨"abc", none, none⟩⟩ ⟨"r", "repo", "u"⟩ none _
    (AuthError.transport "connection refused") rfl

/-- C5: on a 4xx manifest response, a body parsing as an error envelope
with a first entry produces the client error naming that entry and the
request URL, while a body that fails to parse as an envelope produces
the decode failure propagated by the question mark, a constructor
distinct from the client error. -/
theorem pull_manifest_4xx_classification (c : Client) (image : Reference) (env : PullEnv)
    (res : HttpResponse)
    (hres : env.response = Except.ok res)
    (h4 : 400 ≤ res.status) (h4b : res.status ≤ 499) :
    (∀ e rest, env.parseEnvelope res.body = Except.ok ⟨e :: rest⟩ →
      (Client.pull_manifest c image env).2
        = Except.error (PullError.clientError (e ++ " on " ++ image.to_v2_manifest_url))) ∧
    (∀ msg, env.parseEnvelope res.body = Except.error msg →
      (Client.pull_manifest c image env).2 = Except.error (PullError.decode msg)) ∧
    (∀ m1 m2, PullError.decode m1 ≠ PullError.clientError m2) := by
  have hn200 : ¬res.status = 200 := by omega
  have hce : isClientError res.status = true := by
    simp only [isClientError, Bool.and_eq_true, decide_eq_true_eq]
    omega
  refine ⟨?_, ?_, ?_⟩
  · intro e rest henv
    simp [Client.pull_manifest, hres, hn200, hce, henv]
  · intro msg henv
    simp [Client.pull_manifest, hres, hn200, hce, henv]
  · intro m1 m2
    simp

/-- C5 witness: a 404 whose body is the MANIFEST_UNKNOWN envelope yields
the client error naming that entry and the URL; a 404 whose body does
not parse yields the decode failure. -/
theorem pull_manifest_4xx_classification_witness :
    (Client.pull_manifest Client.default ⟨"h", "repo", "http://u"⟩
        { response := Except.ok ⟨404, [], "eb"⟩,
          parseManifest := fun _ => Except.error "m",
          parseEnvelope := fun _ => Except.ok ⟨["MANIFEST_UNKNOWN"]⟩ }).2
      = Except.error (PullError.clientError ("MANIFEST_UNKNOWN" ++ " on " ++ "http://u")) ∧
    (Client.pull_manifest Client.default ⟨"h", "repo", "http://u"⟩
        { response := Except.ok ⟨404, [], "not json"⟩,
          parseManifest := fun _ => Except.error "m",
          parseEnvelope := fun _ => Except.error "expected value" }).2
      = Except.error (PullError.decode "expected value") :=
  ⟨(pull_manifest_4xx_classification Client.default ⟨"h", "repo", "http://u"⟩ _
      ⟨404, [], "eb"⟩ rfl (by decide) (by decide)).1 "MANIFEST_UNKNOWN" [] rfl,
    (pull_manifest_4xx_classification Client.default ⟨"h", "repo", "http://u"⟩ _
      ⟨404, [], "not json"⟩ rfl (by decide) (by decide)).2.1 "expected value" rfl⟩

/-- a token obtained during some operation of a sequence was also
obtained during any longer sequence extending it on the left. -/
theorem tokenFrom200_cons (op : Op) (ops : List Op) (t : RegistryToken)
    (h : tokenFrom200 ops t) : tokenFrom200 (op :: ops) t := by
  obtain ⟨image, secret, env, realm, service, res, hmem, h1, h2, h3⟩ := h
  exact ⟨image, secret, env, realm, service, res, List.mem_cons_of_mem _ hmem, h1, h2, h3⟩

/-- one auth call either leaves the stored token unchanged or stores
exactly the token deserialized from the body of a 200 token-endpoint
response of that call. -/
theorem auth_token_cases (c : Client) (image : Reference) (secret : Option String)
    (env : AuthEnv) :
    (Client.auth c image secret env).1.token = c.token ∨
      ∃ realm service res t,
        env.tokenRes (tokenRequest realm service
            ("repository:" ++ image.repository ++ ":pull")) = Except.ok res ∧
        res.status = 200 ∧ env.parseToken res.body = Except.ok t ∧
        (Client.auth c image secret env).1.token = some t := by
  cases hprobe : env.probe with
  | error e => left; simp [Client.auth, hprobe]
  | ok res =>
    cases hh : List.lookup WWW_AUTHENTICATE res.headers with
    | none => left; simp [Client.auth, hprobe, hh]
    | some hdr =>
      cases hp : env.parseHeader hdr with
      | error e => left; simp [Client.auth, hprobe, hh, hp]
      | ok wa =>
        cases hg : WwwAuthenticate.get wa with
        | none => left; simp [Client.auth, hprobe, hh, hp, hg]
        | some chs =>
          cases chs with
          | nil => left; simp [Client.auth, hprobe, hh, hp, hg]
          | cons ch rest =>
            cases hrealm : ch.realm with
            | none => left; simp [Client.auth, hprobe, hh, hp, hg, hrealm]
            | some realm =>
              cases hserv : ch.service with
              | none => left; simp [Client.auth, hprobe, hh, hp, hg, hrealm, hserv]
              | some service =>
                cases ht : env.tokenRes (tokenRequest realm service
                    ("repository:" ++ image.repository ++ ":pull")) with
                | error e =>
                  left; simp [Client.auth, hprobe, hh, hp, hg, hrealm, hserv, ht]
                | ok auth_res =>
                  by_cases hst : auth_res.status = 200
                  · cases hj : env.parseToken auth_res.body with
                    | error e =>
                      left
                      simp [Client.auth, hprobe, hh, hp, hg, hrealm, hserv, ht, hst, hj]
                    | ok tok =>
                      right
                      refine ⟨realm, service, auth_res, tok, ht, hst, hj, ?_⟩
                      simp [Client.auth, hprobe, hh, hp, hg, hrealm, hserv, ht, hst, hj]
                  · left
                    simp [Client.auth, hprobe, hh, hp, hg, hrealm, hserv, ht, hst]

/-- running a sequence of operations either leaves the stored token as
it started or ends with a token obtained from a 200 token-endpoint
response during one of the auth operations of the sequence. -/
theorem run_token_cases (ops : List Op) :
    ∀ c : Client, (Client.run c ops).token = c.token ∨
      ∃ t, (Client.run c ops).token = some t ∧ tokenFrom200 ops t := by
  induction ops with
  | nil => intro c; exact Or.inl rfl
  | cons op rest ih =>
    intro c
    have hstep : Client.run c (op :: rest) = Client.run (Client.step c op) rest := rfl
    rcases ih (Client.step c op) with hsame | ⟨t, ht, hfrom⟩
    · cases op with
      | versionOp host probe => left; rw [hstep, hsame]; rfl
      | pullOp image env => left; rw [hstep, hsame]; rfl
      | authOp image secret env =>
        rcases auth_token_cases c image secret env with ha | ⟨realm, service, res, t, h1, h2, h3, h4⟩
        · left; rw [hstep, hsame]; exact ha
        · right
          refine ⟨t, by rw [hstep, hsame]; exact h4, ?_⟩
          exact ⟨image, secret, env, realm, service, res, List.mem_cons_self _ _, h1, h2, h3⟩
    · right
      exact ⟨t, by rw [hstep]; exact ht, tokenFrom200_cons op rest t hfrom⟩

/-- C1: across any sequence of version, auth and pull operations started
from a fresh client, the stored credential is absent or is exactly a
token deserialized from the body of a 200 token-endpoint response during
one of the auth operations; no other operation writes the token store. -/
theorem token_store_written_only_by_auth_200 (ops : List Op) :
    (Client.run Client.default ops).token = none ∨
      ∃ t, (Client.run Client.default ops).token = some t ∧ tokenFrom200 ops t := by
  rcases run_token_cases ops Client.default with h | h
  · exact Or.inl h
  · exact Or.inr h

end Oci
